import Mathlib

/-!
Shallow embedding of the session-lifecycle orchestrator of RPiPlay
(`airplay_server.cpp`): command-line argument parsing, hardware-address
parsing (`parse_hw_addr` with the C++ `stol` conversion semantics),
the signal-driven run/stop flag (`signal_handler`), and the ordered
startup (`start_server`) and teardown (`stop_server`) sequences with the
external subsystem calls recorded as a trace.
-/

namespace RPiPlay

/-- Audio output device selector, `audio_device_t` from `audio_renderer.h`
with the three values used by `airplay_server.cpp`. -/
inductive audio_device_t
  | AUDIO_DEVICE_HDMI
  | AUDIO_DEVICE_ANALOG
  | AUDIO_DEVICE_NONE
deriving DecidableEq, Repr

open audio_device_t

/-- The session configuration assembled by `main` before calling
`start_server`: the locals `server_name`, `show_background`,
`audio_device`, `low_latency` of `main`. -/
structure SessionConfiguration where
  server_name : String
  show_background : Bool
  audio_device : audio_device_t
  low_latency : Bool
deriving DecidableEq, Repr

/-- `DEFAULT_NAME` macro. -/
def DEFAULT_NAME : String := "RPiPlay"

/-- `DEFAULT_HW_ADDRESS` macro, as the 6 byte values of the char array. -/
def DEFAULT_HW_ADDRESS : List Nat := [0x48, 0x5d, 0x60, 0x7c, 0xee, 0x22]

/-- The configuration defaults set at the top of `main`:
`DEFAULT_NAME`, `DEFAULT_SHOW_BACKGROUND` (true), `DEFAULT_AUDIO_DEVICE`
(HDMI), `DEFAULT_LOW_LATENCY` (false). -/
def defaultConfig : SessionConfiguration :=
  { server_name := DEFAULT_NAME
    show_background := true
    audio_device := AUDIO_DEVICE_HDMI
    low_latency := false }

/-- Result of the argument-parsing loop of `main`: either the loop ran to
completion producing the configuration, or `-h`/`-v` printed the usage
text and called `exit(0)`. -/
inductive ParseResult
  | exited
  | done (c : SessionConfiguration)
deriving DecidableEq, Repr

/-- The ternary chain assigning `audio_device` for the value of `-a`:
`"hdmi"` maps to HDMI, `"analog"` to ANALOG, anything else to NONE. -/
def parseAudioDevice (s : String) : audio_device_t :=
  if s = "hdmi" then AUDIO_DEVICE_HDMI
  else if s = "analog" then AUDIO_DEVICE_ANALOG
  else AUDIO_DEVICE_NONE

/-- The argument-parsing `for` loop of `main` (lines 114-133), as a
recursion over the remaining argument list carrying the configuration
accumulated so far. `-n`/`-a` as the last argument hit the
`if (i == argc - 1) continue;` guard, which ends the loop with the
configuration unchanged; an unrecognized argument falls off the
`if`/`else` chain and is skipped. -/
def parseArgsLoop : SessionConfiguration → List String → ParseResult
  | c, [] => ParseResult.done c
  | c, a :: rest =>
    if a = "-n" then
      match rest with
      | [] => parseArgsLoop c []
      | v :: rest2 => parseArgsLoop { c with server_name := v } rest2
    else if a = "-b" then
      parseArgsLoop { c with show_background := !c.show_background } rest
    else if a = "-a" then
      match rest with
      | [] => parseArgsLoop c []
      | v :: rest2 => parseArgsLoop { c with audio_device := parseAudioDevice v } rest2
    else if a = "-l" then
      parseArgsLoop { c with low_latency := !c.low_latency } rest
    else if a = "-h" ∨ a = "-v" then
      ParseResult.exited
    else
      parseArgsLoop c rest

/-- Argument parsing from the defaults, as `main` performs it. -/
def parseArgs (args : List String) : ParseResult :=
  parseArgsLoop defaultConfig args

/-! ## Hardware-address parsing

`parse_hw_addr` calls `stol(str.substr(i), NULL, 16)` at positions
`i = 0, 3, 6, ...` and pushes the result cast to `char`. `stol` with base
16 skips leading whitespace, accepts an optional sign and an optional
`0x`/`0X` prefix, converts the longest run of hexadecimal digits, throws
`std::invalid_argument` when no conversion can be performed and
`std::out_of_range` when the value does not fit in `long`; a thrown
exception is modelled as `none` (the program has no handler, so the
process terminates). -/

/-- Whitespace as recognized by `isspace` in the default locale. -/
def charIsSpace (c : Char) : Bool :=
  c.toNat = 32 || c.toNat = 9 || c.toNat = 10 || c.toNat = 11 ||
  c.toNat = 12 || c.toNat = 13

/-- Hexadecimal digit test. -/
def charIsHexDigit (c : Char) : Bool :=
  (48 ≤ c.toNat && c.toNat ≤ 57) ||
  (97 ≤ c.toNat && c.toNat ≤ 102) ||
  (65 ≤ c.toNat && c.toNat ≤ 70)

/-- Numeric value of a hexadecimal digit. -/
def hexVal (c : Char) : Nat :=
  if 48 ≤ c.toNat && c.toNat ≤ 57 then c.toNat - 48
  else if 97 ≤ c.toNat && c.toNat ≤ 102 then c.toNat - 87
  else c.toNat - 55

/-- Value of a run of hexadecimal digits, most significant first. -/
def hexNatOfDigits (ds : List Char) : Nat :=
  ds.foldl (fun acc c => 16 * acc + hexVal c) 0

/-- `LONG_MAX` on the 64-bit targets the program runs on. -/
def LONG_MAX : Int := 2 ^ 63 - 1

/-- `LONG_MIN` on the 64-bit targets the program runs on. -/
def LONG_MIN : Int := -(2 ^ 63)

/-- Conversion part of `stol(·, NULL, 16)` after the optional sign has
been consumed: optional `0x`/`0X` prefix (consumed only when a
hexadecimal digit follows, as `strtol` backs up to the `0` otherwise),
then the longest run of hexadecimal digits. `none` models
`std::invalid_argument` (no digits) or `std::out_of_range` (value
outside `long`). -/
def stol16core (neg : Bool) (l : List Char) : Option Int :=
  let l2 :=
    match l with
    | '0' :: x :: rest =>
      if (x == 'x' || x == 'X') && (match rest with
          | d :: _ => charIsHexDigit d
          | [] => false) then rest else l
    | _ => l
  let ds := l2.takeWhile charIsHexDigit
  if ds.isEmpty then none
  else
    let v : Int := (hexNatOfDigits ds : Int)
    let sv := if neg then -v else v
    if sv < LONG_MIN ∨ LONG_MAX < sv then none else some sv

/-- `stol(·, NULL, 16)` on a character list: skip whitespace, optional
sign, then the base-16 conversion; `none` models a thrown exception. -/
def stol16 (l : List Char) : Option Int :=
  match l.dropWhile charIsSpace with
  | '-' :: t => stol16core true t
  | '+' :: t => stol16core false t
  | t => stol16core false t

/-- The `(char)` cast applied to the `stol` result before `push_back`,
modelled as the byte value modulo 256. -/
def toByte (v : Int) : Nat := (v % 256).toNat

/-- The loop body of `parse_hw_addr`: at index `i` (stepping by 3 while
`i < str.length()`), convert `str.substr(i)` with `stol` and append the
result cast to `char`. `fuel` is an upper bound on the remaining
iterations; the caller passes `str.length + 1`, which always suffices
since each iteration advances `i` by 3, so the fuel-exhausted branch is
never taken. -/
def parse_hw_addr_go (s : List Char) : Nat → Nat → Option (List Nat)
  | 0, _ => some []
  | fuel + 1, i =>
    if i < s.length then
      match stol16 (s.drop i) with
      | none => none
      | some v =>
        match parse_hw_addr_go s fuel (i + 3) with
        | none => none
        | some bs => some (toByte v :: bs)
    else some []

/-- `parse_hw_addr` (lines 73-78): the bytes pushed onto `hw_addr`, or
`none` when an `stol` call throws. -/
def parse_hw_addr (str : String) : Option (List Nat) :=
  parse_hw_addr_go str.data (str.length + 1) 0

/-! ## Run-loop / signal bridge

`signal_handler` (lines 54-61) writes `running = 0` on `SIGINT` and
`SIGTERM` and does nothing else; the run loop (lines 146-148) only reads
`running` while sleeping. The flag is modelled as a `Bool` (`true` is
RUNNING, `false` is STOPPING) and the events that can touch it in the
window between `running = true` and the loop observing the flag are
signal deliveries and loop iterations. -/

def SIGINT : Nat := 2

def SIGTERM : Nat := 15

/-- `signal_handler`: the `switch` writes `running = 0` for `SIGINT` and
`SIGTERM` and leaves the flag unchanged for every other signal; it
performs no other work. -/
def signal_handler (sig : Nat) (running : Bool) : Bool :=
  if sig = SIGINT ∨ sig = SIGTERM then false else running

/-- An event touching the run flag while the run loop waits: an
asynchronous signal delivery, or one `sleep(1)` iteration of the loop
(which only reads the flag). -/
inductive RunEvent
  | signal (sig : Nat)
  | tick
deriving DecidableEq, Repr

/-- Effect of one event on the run flag: a signal runs `signal_handler`,
a loop iteration writes nothing. -/
def runStep (b : Bool) : RunEvent → Bool
  | RunEvent.signal s => signal_handler s b
  | RunEvent.tick => b

/-- Run flag after a sequence of events. -/
def runEvents (b : Bool) (evs : List RunEvent) : Bool :=
  evs.foldl runStep b

/-- Whether an event is a delivery of a termination signal. -/
def RunEvent.isTermSignal : RunEvent → Bool
  | RunEvent.signal s => s = SIGINT ∨ s = SIGTERM
  | RunEvent.tick => false

/-! ## Session lifecycle orchestrator

`start_server` (lines 195-252) and `stop_server` (lines 254-262) call
into the external subsystems (`raop`, `logger`, renderers, `dnssd`).
The outcomes of the external constructors are oracles in an `Env`; the
process-wide handle globals are a `ServerState`; every external call and
log statement is recorded in a trace. -/

/-- Oracles for the external calls `start_server` makes: whether each
constructor returns a usable handle, the error flag `dnssd_init` reports,
whether `dnssd_init` hands back a handle when it reports an error, and
the port value `raop_start` produces (stored into an `unsigned short`,
hence reduced modulo 65536). -/
structure Env where
  raop_init_ok : Bool
  video_init_ok : Bool
  audio_init_ok : Bool
  dnssd_init_handle : Bool
  dnssd_init_error : Bool
  raop_start_port : Nat
deriving DecidableEq, Repr

/-- The process-wide handle globals (lines 49-52): `true` means the
global holds a live (non-NULL) handle. -/
structure ServerState where
  raop : Bool
  video_renderer : Bool
  audio_renderer : Bool
  dnssd : Bool
deriving DecidableEq, Repr

/-- The globals at process start: all four handles NULL. -/
def initState : ServerState :=
  { raop := false, video_renderer := false
    audio_renderer := false, dnssd := false }

/-- External calls and log statements issued by `start_server` and
`stop_server`, in program order. -/
inductive Call
  | raop_init
  | log_error
  | log_debug
  | log_info
  | raop_set_log_callback
  | raop_set_log_level
  | logger_init
  | logger_set_callback
  | logger_set_level
  | logger_log_info
  | video_renderer_init
  | audio_renderer_init
  | video_renderer_start
  | audio_renderer_start
  | raop_start (port : Nat)
  | raop_set_port (port : Nat)
  | dnssd_init
  | raop_set_dnssd
  | dnssd_register_raop (port : Nat)
  | dnssd_register_airplay (port : Nat)
  | raop_destroy
  | dnssd_unregister_raop
  | dnssd_unregister_airplay
  | audio_renderer_destroy
  | video_renderer_destroy
deriving DecidableEq, Repr

/-- Whether a call destroys a subsystem. -/
def Call.isDestroy : Call → Bool
  | Call.raop_destroy => true
  | Call.audio_renderer_destroy => true
  | Call.video_renderer_destroy => true
  | _ => false

/-- Whether a call registers an advertised service. -/
def Call.isRegister : Call → Bool
  | Call.dnssd_register_raop _ => true
  | Call.dnssd_register_airplay _ => true
  | _ => false

/-- Result of `start_server`: the returned `int`, the handle globals on
return, and the trace of external calls made. -/
structure StartOutcome where
  result : Int
  state : ServerState
  trace : List Call
deriving DecidableEq, Repr

/-- Tail of `start_server` from line 231 (`video_renderer_start`) to the
end: start the renderers that exist, start the protocol engine and
record its port, construct the advertiser (return -2 when its error flag
is set), then register the two services on `port` and `port + 1`. -/
def start_server_tail (env : Env) (s : ServerState) (tr : List Call) : StartOutcome :=
  let tr := if s.video_renderer then tr ++ [Call.video_renderer_start] else tr
  let tr := if s.audio_renderer then tr ++ [Call.audio_renderer_start] else tr
  let port := env.raop_start_port % 65536
  let tr := tr ++ [Call.raop_start port, Call.raop_set_port port, Call.log_debug]
  let s := { s with dnssd := env.dnssd_init_handle }
  let tr := tr ++ [Call.dnssd_init]
  if env.dnssd_init_error then
    { result := -2, state := s, trace := tr ++ [Call.log_error] }
  else
    { result := 0, state := s
      trace := tr ++ [Call.raop_set_dnssd, Call.dnssd_register_raop port,
                      Call.dnssd_register_airplay (port + 1)] }

/-- `start_server` (lines 195-252): construct the protocol engine (return
-1 when `raop_init` yields NULL), install the log callback and renderer
logger, construct the video renderer (return -1 on NULL), skip or
construct the audio renderer depending on the device selector (return -1
on NULL), then run the tail. The handle globals are assigned exactly
where the source assigns them and nothing is ever destroyed on a failure
path. -/
def start_server (env : Env) (cfg : SessionConfiguration) (s : ServerState) : StartOutcome :=
  let s := { s with raop := env.raop_init_ok }
  let tr := [Call.raop_init]
  if env.raop_init_ok = false then
    { result := -1, state := s, trace := tr ++ [Call.log_error] }
  else
    let tr := tr ++ [Call.log_debug, Call.raop_set_log_callback, Call.raop_set_log_level,
                     Call.logger_init, Call.logger_set_callback, Call.logger_set_level]
    let tr := if cfg.low_latency then tr ++ [Call.logger_log_info] else tr
    let s := { s with video_renderer := env.video_init_ok }
    let tr := tr ++ [Call.video_renderer_init]
    if env.video_init_ok = false then
      { result := -1, state := s, trace := tr ++ [Call.log_error] }
    else if cfg.audio_device = AUDIO_DEVICE_NONE then
      start_server_tail env s (tr ++ [Call.log_info])
    else
      let s := { s with audio_renderer := env.audio_init_ok }
      let tr := tr ++ [Call.audio_renderer_init]
      if env.audio_init_ok = false then
        { result := -1, state := s, trace := tr ++ [Call.log_error] }
      else
        start_server_tail env s tr

/-- `stop_server` (lines 254-262): unconditionally destroy the protocol
engine, unregister both services, then destroy the audio renderer before
the video renderer (the comment in the source notes the order avoids an
`ilclient` deadlock). The handle globals are not reassigned. -/
def stop_server (s : ServerState) : ServerState × List Call :=
  (s, [Call.raop_destroy, Call.dnssd_unregister_raop, Call.dnssd_unregister_airplay,
       Call.audio_renderer_destroy, Call.video_renderer_destroy])

/-- Environment in which every subsystem constructor succeeds and the
engine picks port 5000. -/
def envAllOk : Env :=
  { raop_init_ok := true, video_init_ok := true, audio_init_ok := true
    dnssd_init_handle := true, dnssd_init_error := false, raop_start_port := 5000 }

/-- Environment in which the protocol engine fails to construct. -/
def envEngineFail : Env :=
  { envAllOk with raop_init_ok := false }

/-- Environment in which the video renderer fails to construct. -/
def envVideoFail : Env :=
  { envAllOk with video_init_ok := false }

/-! ## Helper lemmas -/

/-- Once the run flag is cleared, a single further event leaves it
cleared: a signal either clears it again or leaves it, a loop iteration
does not write it. -/
lemma runStep_false (e : RunEvent) : runStep false e = false := by
  cases e <;> simp [runStep, signal_handler]

/-- Once the run flag is cleared, no sequence of further events sets it
again. -/
lemma runEvents_false (evs : List RunEvent) : runEvents false evs = false := by
  induction evs with
  | nil => rfl
  | cons e t ih =>
    show runEvents (runStep false e) t = false
    rw [runStep_false]
    exact ih

/-- Length of the byte list produced by the `parse_hw_addr` loop from
index `i`: one byte per executed iteration, i.e. the ceiling of the
remaining length over 3, provided the fuel covers the remaining
iterations. -/
lemma parse_hw_addr_go_length (s : List Char) :
    ∀ (fuel i : Nat) (bs : List Nat), s.length ≤ i + 3 * fuel →
      parse_hw_addr_go s fuel i = some bs →
      bs.length = (s.length - i + 2) / 3 := by
  intro fuel
  induction fuel with
  | zero =>
    intro i bs hle hgo
    simp only [parse_hw_addr_go, Option.some.injEq] at hgo
    subst hgo
    simp only [List.length_nil]
    omega
  | succ fuel ih =>
    intro i bs hle hgo
    by_cases hi : i < s.length
    · simp only [parse_hw_addr_go, if_pos hi] at hgo
      cases hst : stol16 (s.drop i) with
      | none => rw [hst] at hgo; exact absurd hgo (by simp)
      | some v =>
        rw [hst] at hgo
        cases hrec : parse_hw_addr_go s fuel (i + 3) with
        | none => rw [hrec] at hgo; exact absurd hgo (by simp)
        | some bs2 =>
          rw [hrec] at hgo
          simp only [Option.some.injEq] at hgo
          have h2 := ih (i + 3) bs2 (by omega) hrec
          subst hgo
          simp only [List.length_cons, h2]
          omega
    · simp only [parse_hw_addr_go, if_neg hi, Option.some.injEq] at hgo
      subst hgo
      simp only [List.length_nil]
      omega

/-! ## Claim theorems -/

/-- C1 (counterexample): with the video renderer failing to construct,
`start_server` returns an error while the protocol engine constructed in
the earlier step is still live in the process-wide global and no destroy
call was made before returning, contradicting the claim that every
earlier-constructed subsystem is destroyed before a failed `start`
returns. -/
theorem C1_counterexample :
    (start_server envVideoFail defaultConfig initState).result ≠ 0 ∧
    (start_server envVideoFail defaultConfig initState).state.raop = true ∧
    (start_server envVideoFail defaultConfig initState).trace.filter Call.isDestroy = [] := by
  decide

/-- C1 (amended): when `start_server` fails at any step, it returns its
error without destroying anything: the trace of a failed start contains
no destroy call, and the engine and video-renderer globals keep exactly
the handles their constructors produced, so subsystems constructed
before the failing step remain live and reachable (they are torn down
only by a later `stop_server`). -/
theorem C1_failed_start_no_unwind (env : Env) (cfg : SessionConfiguration)
    (h : (start_server env cfg initState).result ≠ 0) :
    (start_server env cfg initState).trace.filter Call.isDestroy = [] ∧
    (start_server env cfg initState).state.raop = env.raop_init_ok ∧
    (start_server env cfg initState).state.video_renderer =
      (env.raop_init_ok && env.video_init_ok) := by
  rcases env with ⟨r, v, a, dh, de, p⟩
  rcases cfg with ⟨n, b, d, l⟩
  cases r <;> cases v <;> cases a <;> cases de <;> cases d <;> cases l <;>
    simp_all [start_server, start_server_tail, initState, Call.isDestroy]

/-- C1 (witness): the amended statement at the concrete environment in
which the video renderer fails. -/
theorem C1_failed_start_no_unwind_witness :
    (start_server envVideoFail defaultConfig initState).trace.filter Call.isDestroy = [] ∧
    (start_server envVideoFail defaultConfig initState).state.raop =
      envVideoFail.raop_init_ok ∧
    (start_server envVideoFail defaultConfig initState).state.video_renderer =
      (envVideoFail.raop_init_ok && envVideoFail.video_init_ok) :=
  C1_failed_start_no_unwind envVideoFail defaultConfig (by decide)

/-- C2: `stop_server` issues, for every state of the handle globals,
exactly the fixed call sequence: destroy the protocol engine first, then
unregister the two advertised services, then destroy the audio renderer,
and destroy the video renderer last; in particular the video renderer is
never destroyed before the audio renderer. -/
theorem C2_stop_order (s : ServerState) :
    (stop_server s).2 =
      [Call.raop_destroy, Call.dnssd_unregister_raop, Call.dnssd_unregister_airplay,
       Call.audio_renderer_destroy, Call.video_renderer_destroy] := rfl

/-- C3 (counterexample): an engine-init failure and a video-renderer-init
failure are distinct failure causes, yet `start_server` returns the same
value (-1) for both, so the caller cannot tell from the result alone
which step failed. -/
theorem C3_counterexample :
    envEngineFail.raop_init_ok = false ∧
    envVideoFail.raop_init_ok = true ∧ envVideoFail.video_init_ok = false ∧
    (start_server envEngineFail defaultConfig initState).result =
      (start_server envVideoFail defaultConfig initState).result := by
  decide

/-- C3 (amended): `start_server` surfaces only the discovery failure
distinctly: the result is -2 exactly when engine, video renderer and (if
requested) audio renderer all constructed and `dnssd_init` reported an
error, while engine-init, video-renderer-init and audio-renderer-init
failures all yield the same result -1, so from the result alone the
caller can distinguish discovery failure but not which of the other
three steps failed. -/
theorem C3_error_codes (env : Env) (cfg : SessionConfiguration) :
    ((start_server env cfg initState).result = -2 ↔
      (env.raop_init_ok = true ∧ env.video_init_ok = true ∧
       (cfg.audio_device = AUDIO_DEVICE_NONE ∨ env.audio_init_ok = true) ∧
       env.dnssd_init_error = true)) ∧
    ((start_server env cfg initState).result = -1 ↔
      (env.raop_init_ok = false ∨
       (env.raop_init_ok = true ∧ env.video_init_ok = false) ∨
       (env.raop_init_ok = true ∧ env.video_init_ok = true ∧
        cfg.audio_device ≠ AUDIO_DEVICE_NONE ∧ env.audio_init_ok = false))) := by
  rcases env with ⟨r, v, a, dh, de, p⟩
  rcases cfg with ⟨n, b, d, l⟩
  cases r <;> cases v <;> cases a <;> cases de <;> cases d <;> cases l <;>
    simp_all [start_server, start_server_tail, initState]

/-- C4: whenever `start_server` succeeds, the registration calls in its
trace are exactly the primary streaming service on the port produced by
the protocol engine's start (stored into an `unsigned short`) and the
companion service on exactly that port plus one. -/
theorem C4_companion_port (env : Env) (cfg : SessionConfiguration)
    (h : (start_server env cfg initState).result = 0) :
    (start_server env cfg initState).trace.filter Call.isRegister =
      [Call.dnssd_register_raop (env.raop_start_port % 65536),
       Call.dnssd_register_airplay (env.raop_start_port % 65536 + 1)] := by
  rcases env with ⟨r, v, a, dh, de, p⟩
  rcases cfg with ⟨n, b, d, l⟩
  cases r <;> cases v <;> cases a <;> cases de <;> cases d <;> cases l <;>
    simp_all [start_server, start_server_tail, initState, Call.isRegister]

/-- C4 (witness): the successful start in the all-succeed environment
with engine port 5000 registers the services on ports 5000 and 5001. -/
theorem C4_companion_port_witness :
    (start_server envAllOk defaultConfig initState).trace.filter Call.isRegister =
      [Call.dnssd_register_raop 5000, Call.dnssd_register_airplay 5001] := by
  simpa using C4_companion_port envAllOk defaultConfig (by decide)

/-- C5: for every environment and configuration, a successful
`start_server` leaves the audio-renderer global holding a live handle if
and only if the configuration's audio device selector is not NONE. -/
theorem C5_audio_iff_present (env : Env) (cfg : SessionConfiguration)
    (h : (start_server env cfg initState).result = 0) :
    ((start_server env cfg initState).state.audio_renderer = true ↔
      cfg.audio_device ≠ AUDIO_DEVICE_NONE) := by
  rcases env with ⟨r, v, a, dh, de, p⟩
  rcases cfg with ⟨n, b, d, l⟩
  cases r <;> cases v <;> cases a <;> cases de <;> cases d <;> cases l <;>
    simp_all [start_server, start_server_tail, initState]

/-- C5 (witness): the all-succeed environment with the default (HDMI)
configuration starts successfully and has an audio renderer present. -/
theorem C5_audio_iff_present_witness :
    (start_server envAllOk defaultConfig initState).result = 0 ∧
    ((start_server envAllOk defaultConfig initState).state.audio_renderer = true ↔
      defaultConfig.audio_device ≠ AUDIO_DEVICE_NONE) :=
  ⟨by decide, C5_audio_iff_present envAllOk defaultConfig (by decide)⟩

/-- C6: `parse_hw_addr` consumes hexadecimal pairs at positions 0, 3, 6,
... of the colon-delimited text, and on the well-formed input
`48:5d:60:7c:ee:22` produces exactly the six bytes 0x48, 0x5d, 0x60,
0x7c, 0xee, 0x22. -/
theorem C6_parse_well_formed_mac :
    parse_hw_addr ("48:5d:60:7c:ee:22") =
      some [0x48, 0x5d, 0x60, 0x7c, 0xee, 0x22] := by
  decide

/-- C7: delivering the termination signal any number of times before the
run loop observes the flag leaves the flag settled at STOPPING (false):
for every sequence of events (signal deliveries and read-only loop
iterations) containing at least one `SIGINT`/`SIGTERM` delivery, the
flag ends up false regardless of its starting value, of repeated
deliveries, and of any interleaved events — no step sets it back,
because the handler writes only the flag and only to STOPPING, and the
loop does not write it. -/
theorem C7_termination_signal_settles (evs : List RunEvent) (b : Bool)
    (h : ∃ e ∈ evs, e.isTermSignal = true) : runEvents b evs = false := by
  induction evs generalizing b with
  | nil => simp at h
  | cons e t ih =>
    rcases h with ⟨f, hf, hterm⟩
    rcases List.mem_cons.mp hf with rfl | hft
    · show runEvents (runStep b f) t = false
      have hstep : runStep b f = false := by
        cases f with
        | signal s =>
          simp only [RunEvent.isTermSignal, decide_eq_true_eq] at hterm
          simp only [runStep, signal_handler]
          rw [if_pos hterm]
        | tick => simp [RunEvent.isTermSignal] at hterm
      rw [hstep]
      exact runEvents_false t
    · show runEvents (runStep b e) t = false
      exact ih _ ⟨f, hft, hterm⟩

/-- C7 (witness): two termination signals followed by a loop iteration,
starting from RUNNING, leave the flag at STOPPING. -/
theorem C7_termination_signal_settles_witness :
    runEvents true [RunEvent.signal SIGTERM, RunEvent.signal SIGINT, RunEvent.tick] = false :=
  C7_termination_signal_settles _ true (by decide)

/-- C8: when `-n` or `-a` is the final argument with no value following
it, the parsing loop skips the option and finishes normally with the
accumulated configuration unchanged, so from the defaults the name stays
`RPiPlay` and the audio device stays HDMI; no error is raised. -/
theorem C8_trailing_option_skipped (c : SessionConfiguration) :
    parseArgsLoop c (["-n"]) = ParseResult.done c ∧
    parseArgsLoop c (["-a"]) = ParseResult.done c ∧
    parseArgs (["-n"]) = ParseResult.done defaultConfig ∧
    parseArgs (["-a"]) = ParseResult.done defaultConfig ∧
    defaultConfig.server_name = DEFAULT_NAME ∧
    defaultConfig.audio_device = AUDIO_DEVICE_HDMI := by
  refine ⟨rfl, rfl, rfl, rfl, rfl, rfl⟩

/-- C9 (counterexample): the input `:` is non-empty, but parsing it does
not append ceil(1/3) = 1 byte: the first `stol` call finds no
convertible digits and throws, so no byte list results at all. -/
theorem C9_counterexample :
    (":" : String) ≠ "" ∧ parse_hw_addr (":") = none := by
  decide

/-- C9 (amended): whenever `parse_hw_addr` completes (every positional
`stol` conversion succeeds), it produces exactly ceil(|s|/3) bytes;
consequently, when the interface file yields a string whose length is
not 16, 17 or 18, either parsing dies with an exception or the resulting
hardware address does not have 6 bytes — the 6-byte shape is not
enforced by the resolver. -/
theorem C9_byte_count (s : String) (bs : List Nat)
    (h : parse_hw_addr s = some bs) :
    bs.length = (s.length + 2) / 3 ∧
    (¬(16 ≤ s.length ∧ s.length ≤ 18) → bs.length ≠ 6) := by
  have hlen : s.length = s.data.length := rfl
  have h1 := parse_hw_addr_go_length s.data (s.length + 1) 0 bs (by omega) h
  constructor
  · rw [h1]; omega
  · intro hn; rw [h1]; omega

/-- C9 (witness): the amended statement at the 5-character input
`48:5d`, which parses to 2 = ceil(5/3) bytes, not 6. -/
theorem C9_byte_count_witness :
    (([72, 93] : List Nat).length = (("48:5d" : String).length + 2) / 3) ∧
    (([72, 93] : List Nat).length ≠ 6) := by
  have h := C9_byte_count ("48:5d") [72, 93] (by decide)
  exact ⟨h.1, h.2 (by decide)⟩

/-- C10: an argument that is not one of the six recognized options,
reached in option position, is silently skipped: the loop continues on
the rest of the arguments with the configuration unchanged and without
exiting. -/
theorem C10_unknown_arg_ignored (c : SessionConfiguration) (a : String)
    (rest : List String)
    (h1 : a ≠ "-n") (h2 : a ≠ "-b") (h3 : a ≠ "-a") (h4 : a ≠ "-l")
    (h5 : a ≠ "-h") (h6 : a ≠ "-v") :
    parseArgsLoop c (a :: rest) = parseArgsLoop c rest := by
  cases rest <;> simp [parseArgsLoop, h1, h2, h3, h4, h5, h6]

/-- C10 (witness): the unknown argument `-x` is skipped from the default
configuration. -/
theorem C10_unknown_arg_ignored_witness :
    parseArgsLoop defaultConfig (["-x"]) = parseArgsLoop defaultConfig [] :=
  C10_unknown_arg_ignored defaultConfig ("-x") [] (by decide) (by decide)
    (by decide) (by decide) (by decide) (by decide)

end RPiPlay
